import Mathlib

/-!
Verification of the WhatsApp preview webhook handler
(`apps/builder/src/features/whatsapp/receiveMessagePreview.ts`).

The handler is embedded shallowly: the webhook payload becomes an inductive
data model, the two side-effecting collaborators (`deleteSession`,
`resumeWhatsAppFlow`) and the telemetry sink become entries in an explicit
event trace, and collaborator outcomes are supplied as function-valued
parameters (`none` = the awaited call resolves, `some e` = it rejects with
error `e`).  Thrown JS errors are modelled by the `Err` type threaded through
`Option`; the handler returns the full event trace together with its result.
-/

namespace WhatsAppPreview

/-- Error record inside a webhook delivery status, as read by the handler
(`error.code`, `error.error_data`).  The external zod schema is not part of
the sources; the fields modelled are exactly those the handler reads, with
`error_data` optional structured detail. -/
structure WAErr where
  code : Nat
  error_data : Option String
  deriving DecidableEq, Repr

/-- Delivery status record: `status.recipient_id` and the optional
`status.errors` list (an empty list is distinct from an absent field,
mirroring a present-but-empty JSON array). -/
structure Status where
  recipient_id : String
  errors : Option (List WAErr)
  deriving DecidableEq, Repr

/-- Contact profile (`profile.name`); the optional chaining in the source
means the name may be absent. -/
structure Profile where
  name : Option String
  deriving DecidableEq, Repr

/-- Contact record (`contacts[i].profile`). -/
structure Contact where
  profile : Option Profile
  deriving DecidableEq, Repr

/-- Inbound message.  The handler reads only `type` and `from` and passes the
whole record to the flow-resumption collaborator; `text` stands for the
type-specific content carried along opaquely. -/
structure Message where
  type : String
  «from» : String
  text : Option String
  deriving DecidableEq, Repr

/-- The `value` of a webhook change: optional `statuses`, `messages`,
`contacts` sequences. -/
structure ChangeValue where
  statuses : Option (List Status)
  messages : Option (List Message)
  contacts : Option (List Contact)
  deriving DecidableEq, Repr

/-- A webhook change. -/
structure Change where
  value : ChangeValue
  deriving DecidableEq, Repr

/-- A webhook entry; the payload handed to the handler is `List Entry`. -/
structure Entry where
  changes : List Change
  deriving DecidableEq, Repr

/-- Errors thrown inside the handler: `WhatsAppError(message, details)` where
the details record, when present, is `(reason := error.error_data)`;
`TRPCError(code, message)`; and plain `Error(message)`. -/
inductive Err where
  | whatsApp (message : String) (details : Option (Option String))
  | trpc (code : String) (message : String)
  | unknown (message : String)
  deriving DecidableEq, Repr

/-- Observable side effects of one invocation, in execution order:
the two collaborator calls and the three telemetry calls of the catch block. -/
inductive Event where
  | deleteSession (sessionId : String)
  | resumeFlow (msg : Message) (sessionId : String)
      (contactName : String) (contactPhoneNumber : String)
  | captureMessage (message : String) (details : Option (Option String))
  | addBreadcrumb (data : String)
  | captureException (e : Err)
  deriving DecidableEq, Repr

/-- Outcomes of the two fallible collaborators, per call arguments:
`none` means the awaited promise resolves, `some e` that it rejects with `e`. -/
structure Collab where
  deleteSessionOutcome : String → Option Err
  resumeOutcome : Message → String → String → String → Option Err

/-- Fixed prefix of preview session ids (`whatsAppPreviewSessionIdPrefix`). -/
def whatsAppPreviewSessionIdPrefix : String := "wa-preview-"

/-- Modelled from the spec: the numeric table `incomingWebhookErrorCodes` lives
in the external package `@typebot.io/whatsapp/constants`, not in the sources
here.  The spec names three recognized codes; we model them as three distinct
numerals (the WhatsApp Business platform codes).  Code for the
"Could not send message to unengaged user" entry. -/
def unengagedUserCode : Nat := 131047

/-- Modelled from the spec: code for the "Message undeliverable" entry of
`incomingWebhookErrorCodes` (see `unengagedUserCode`). -/
def messageUndeliverableCode : Nat := 131026

/-- Modelled from the spec: code for the "Media upload error" entry of
`incomingWebhookErrorCodes` (see `unengagedUserCode`). -/
def mediaUploadErrorCode : Nat := 131053

/-- First change value consulted by the handler:
`entry.at(0)?.changes.at(0)?.value`. -/
def firstChangeValue (entry : List Entry) : Option ChangeValue :=
  (entry.head?.bind fun e => e.changes.head?).map Change.value

/-- First delivery status: `entry.at(0)?.changes.at(0)?.value.statuses?.at(0)`. -/
def firstStatus (entry : List Entry) : Option Status :=
  ((firstChangeValue entry).bind ChangeValue.statuses).bind List.head?

/-- First inbound message: `entry.at(0)?.changes.at(0)?.value.messages?.at(0)`. -/
def firstMessage (entry : List Entry) : Option Message :=
  ((firstChangeValue entry).bind ChangeValue.messages).bind List.head?

/-- First contact: `entry.at(0)?.changes.at(0)?.value?.contacts?.at(0)`. -/
def firstContact (entry : List Entry) : Option Contact :=
  ((firstChangeValue entry).bind ChangeValue.contacts).bind List.head?

/-- Serialization of one error record, standing for `JSON.stringify` on it
(string escaping elided: the diagnostic strings are opaque to the handler). -/
def waErrJson (e : WAErr) : String :=
  match e.error_data with
  | none => "\x7b\"code\":" ++ toString e.code ++ "\x7d"
  | some d =>
      "\x7b\"code\":" ++ toString e.code ++ ",\"error_data\":\"" ++ d ++ "\"\x7d"

/-- Serialization of an errors list, standing for `JSON.stringify(status.errors)`. -/
def waErrListJson (es : List WAErr) : String :=
  "[" ++ String.intercalate "," (es.map waErrJson) ++ "]"

/-- Serialization of a status record, standing for `JSON.stringify(status)`.
Note it includes the full `errors` list, not only its first element. -/
def statusJson (s : Status) : String :=
  match s.errors with
  | none => "\x7b\"recipient_id\":\"" ++ s.recipient_id ++ "\"\x7d"
  | some es =>
      "\x7b\"recipient_id\":\"" ++ s.recipient_id ++ "\",\"errors\":" ++
        waErrListJson es ++ "\x7d"

/-- Body of `processErrors` after the first status has been selected; the
guard `if (status?.errors)` is truthy exactly when a first status exists and
its `errors` field is present (a present-but-empty array is truthy). -/
def processErrorsCore (deleteSessionOutcome : String → Option Err) :
    Option Status → List Event × Option Err
  | none => ([], none)
  | some status =>
    match status.errors with
    | none => ([], none)
    | some errs =>
      match errs.head? with
      | none => ([], some (.unknown ("WA empty errors: " ++ statusJson status)))
      | some error =>
        if error.code = unengagedUserCode then
          let sid := whatsAppPreviewSessionIdPrefix ++ status.recipient_id
          ([Event.deleteSession sid],
            some (match deleteSessionOutcome sid with
              | none => .whatsApp "Could not send message to unengaged user" none
              | some e => e))
        else if error.code = messageUndeliverableCode then
          ([], some (.whatsApp "Message undeliverable" none))
        else if error.code = mediaUploadErrorCode then
          ([], some (.whatsApp "Media upload error" (some error.error_data)))
        else
          ([], some (.unknown ("WA unknown incoming errors: " ++ waErrListJson errs)))

/-- The `processErrors` helper: selects the first status and applies the error
policy.  Returns the trace of collaborator calls it made and the error it
throws, if any (`none` = returns normally).  A rejection of the awaited
`deleteSession` call replaces the classified error as the thrown value. -/
def processErrors (deleteSessionOutcome : String → Option Err)
    (entry : List Entry) : List Event × Option Err :=
  processErrorsCore deleteSessionOutcome (firstStatus entry)

/-- Result record of `extractMessageData`. -/
structure MessageData where
  receivedMessage : Option Message
  contactName : String
  contactPhoneNumber : String
  deriving DecidableEq, Repr

/-- The `extractMessageData` helper: first message, first contact profile name
defaulted to the empty string, and the first message sender defaulted to the
empty string. -/
def extractMessageData (entry : List Entry) : MessageData where
  receivedMessage := firstMessage entry
  contactName :=
    (((firstContact entry).bind Contact.profile).bind Profile.name).getD ""
  contactPhoneNumber := ((firstMessage entry).map Message.«from»).getD ""

/-- JS falsiness of the environment value
`env.WHATSAPP_PREVIEW_FROM_PHONE_NUMBER_ID`: absent or the empty string. -/
def envFalsy (v : Option String) : Bool := v.getD "" = ""

/-- The `assertEnv` helper: throws a `TRPCError` with code
`INTERNAL_SERVER_ERROR` when the environment value is falsy. -/
def assertEnv (envPhoneId : Option String) : Option Err :=
  if envFalsy envPhoneId then
    some (.trpc "INTERNAL_SERVER_ERROR"
      "WHATSAPP_PREVIEW_FROM_PHONE_NUMBER_ID is not defined")
  else none

/-- Modelled from the spec: `parseUnknownError` comes from the external
package `@typebot.io/lib/parseUnknownError`; the spec describes its output as
the diagnostic detail of an arbitrary thrown error.  We model the `details`
string it produces as the message carried by the error. -/
def parseUnknownErrorDetails : Err → String
  | .whatsApp m _ => m
  | .trpc _ m => m
  | .unknown m => m

/-- The `safeJsonParse` helper applied to the detail string: it returns the
JSON-parsed value when the string parses and the raw string otherwise.  Our
modelled detail strings are plain diagnostics, so the raw-string branch is
taken and the value passes through unchanged. -/
def safeJsonParse (value : Option String) : Option String := value

/-- The catch block of the handler: a `WhatsAppError` goes to
`Sentry.captureMessage(err.message, err.details)`; any other error gets a
breadcrumb with its parsed details and `Sentry.captureException(err)`. -/
def reportError : Err → List Event
  | .whatsApp m d => [.captureMessage m d]
  | e =>
      [.addBreadcrumb ((safeJsonParse (some (parseUnknownErrorDetails e))).getD ""),
       .captureException e]

/-- Transport-level outcome of one invocation: either a returned success
record holding a message string, or an error propagated to the transport
layer. -/
inductive HandlerResult where
  | ok (message : String)
  | errored (e : Err)
  deriving DecidableEq, Repr

/-- The `receiveMessagePreview` mutation body: asserts the environment (its
failure propagates, being outside the try block), then runs the error policy,
the extraction, and flow resumption inside a catch-all that reports and
swallows every thrown error, always acknowledging success. -/
def receiveMessagePreview (envPhoneId : Option String) (c : Collab)
    (entry : List Entry) : List Event × HandlerResult :=
  match assertEnv envPhoneId with
  | some e => ([], .errored e)
  | none =>
    match processErrors c.deleteSessionOutcome entry with
    | (evs, some e) => (evs ++ reportError e, .ok "Message received")
    | (evs, none) =>
      let md := extractMessageData entry
      match md.receivedMessage with
      | none => (evs, .ok "No message content found")
      | some msg =>
        if msg.type = "reaction" then (evs, .ok "No message content found")
        else
          let sid := whatsAppPreviewSessionIdPrefix ++ msg.«from»
          match c.resumeOutcome msg sid md.contactName md.contactPhoneNumber with
          | none =>
              (evs ++ [Event.resumeFlow msg sid md.contactName md.contactPhoneNumber],
                .ok "Message received")
          | some e =>
              (evs ++ [Event.resumeFlow msg sid md.contactName md.contactPhoneNumber]
                ++ reportError e,
                .ok "Message received")

/-- True exactly on session-deletion events. -/
def isDeleteEvent : Event → Bool
  | .deleteSession _ => true
  | _ => false

/-- True exactly on flow-resumption events. -/
def isResumeEvent : Event → Bool
  | .resumeFlow .. => true
  | _ => false

/-- Collaborators whose every call resolves; used to evaluate the handler on
concrete payloads. -/
def collabUnit : Collab where
  deleteSessionOutcome := fun _ => none
  resumeOutcome := fun _ _ _ _ => none

/-- Error record carrying the unengaged-user code. -/
def unengagedErr : WAErr := ⟨unengagedUserCode, none⟩

/-- Concrete status carrying one unengaged-user error. -/
def statusUnengaged : Status := ⟨"600777", some [unengagedErr]⟩

/-- Concrete payload whose only content is `statusUnengaged`. -/
def entryUnengaged : List Entry :=
  [⟨[⟨⟨some [statusUnengaged], none, none⟩⟩]⟩]

/-- Concrete real (non-reaction) inbound message. -/
def msgHello : Message := ⟨"text", "601888", some "hello"⟩

/-- Concrete payload with one real message and one named contact. -/
def entryRealMessage : List Entry :=
  [⟨[⟨⟨none, some [msgHello], some [⟨some ⟨some "Ada"⟩⟩]⟩⟩]⟩]

/-- Concrete payload with no messages but an error-carrying first status
(unrecognized code 0). -/
def entryNoMsgWithError : List Entry :=
  [⟨[⟨⟨some [⟨"600555", some [⟨0, none⟩]⟩], none, none⟩⟩]⟩]

/-- Concrete status whose single error code matches none of the three
recognized codes. -/
def statusUnknownCode : Status := ⟨"600999", some [⟨42, some "detail"⟩]⟩

/-- Concrete payload whose only content is `statusUnknownCode`. -/
def entryUnknownCode : List Entry :=
  [⟨[⟨⟨some [statusUnknownCode], none, none⟩⟩]⟩]

/-- Payload whose first status has one unrecognized error. -/
def entryOneStrayError : List Entry :=
  [⟨[⟨⟨some [⟨"600300", some [⟨5, none⟩]⟩], none, none⟩⟩]⟩]

/-- Same as `entryOneStrayError` except for an additional second error in the
first status; it agrees with `entryOneStrayError` on the first error, the
recipient, the first message and the first contact. -/
def entryTwoStrayErrors : List Entry :=
  [⟨[⟨⟨some [⟨"600300", some [⟨5, none⟩, ⟨6, none⟩]⟩], none, none⟩⟩]⟩]

/-- `entryRealMessage` followed by an extra entry that should be ignored. -/
def entryRealMessageExtraTail : List Entry :=
  entryRealMessage ++ [⟨[⟨⟨some [statusUnknownCode], none, none⟩⟩]⟩]

/-- Concrete payload whose only content is one status with a
present-but-empty errors list. -/
def entryEmptyErrors : List Entry :=
  [⟨[⟨⟨some [⟨"600123", some []⟩], none, none⟩⟩]⟩]

theorem reportError_no_collab_events (e : Err) :
    (reportError e).countP isDeleteEvent = 0 ∧
      (reportError e).countP isResumeEvent = 0 := by
  cases e <;> exact ⟨rfl, rfl⟩

theorem assertEnv_none (v : Option String) (h : envFalsy v = false) :
    assertEnv v = none := by
  simp [assertEnv, h]

/-- C1: with the required environment value present (and the error-reporting
collaborators modelled as infallible), the handler returns a success value
carrying some message string, whatever the payload and whatever the outcomes
of session deletion and flow resumption: every thrown error is absorbed by
the catch block and never reaches the transport layer. -/
theorem c1_always_success (envPhoneId : Option String) (c : Collab)
    (entry : List Entry) (h : envFalsy envPhoneId = false) :
    ∃ m : String, (receiveMessagePreview envPhoneId c entry).2 = .ok m := by
  unfold receiveMessagePreview
  rw [assertEnv_none envPhoneId h]
  rcases hp : processErrors c.deleteSessionOutcome entry with ⟨evs, oe⟩
  cases oe with
  | some e => exact ⟨_, rfl⟩
  | none =>
    cases hm : (extractMessageData entry).receivedMessage with
    | none => exact ⟨"No message content found", by simp [hm]⟩
    | some msg =>
      by_cases ht : msg.type = "reaction"
      · exact ⟨"No message content found", by simp [hm, ht]⟩
      · cases hr : c.resumeOutcome msg
            (whatsAppPreviewSessionIdPrefix ++ msg.«from»)
            (extractMessageData entry).contactName
            (extractMessageData entry).contactPhoneNumber with
        | none => exact ⟨"Message received", by simp [hm, ht, hr]⟩
        | some e => exact ⟨"Message received", by simp [hm, ht, hr]⟩

theorem c1_witness :
    envFalsy (some "phone-id") = false ∧
      ∃ m : String,
        (receiveMessagePreview (some "phone-id") collabUnit []).2 = .ok m :=
  ⟨by decide, c1_always_success (some "phone-id") collabUnit [] (by decide)⟩

/-- C7: with the environment value absent the handler fails immediately with
an internal-error classification: no collaborator call, no telemetry, no
payload processing of any kind happens, and the error is propagated to the
caller instead of being turned into a success acknowledgment. -/
theorem c7_missing_env_short_circuits (c : Collab) (entry : List Entry) :
    receiveMessagePreview none c entry =
      ([], .errored (.trpc "INTERNAL_SERVER_ERROR"
        "WHATSAPP_PREVIEW_FROM_PHONE_NUMBER_ID is not defined")) := rfl

/-- C5: a first status whose `errors` field is present but empty makes
`processErrors` throw a plain (non-WhatsAppError) protocol error whose message
embeds the serialized raw status; the handler reports it through the
unclassified path (breadcrumb plus captured exception, no classified capture)
and still acknowledges success. -/
theorem c5_empty_errors_unclassified (envPhoneId : Option String) (c : Collab)
    (entry : List Entry) (s : Status) (h : envFalsy envPhoneId = false)
    (hs : firstStatus entry = some s) (he : s.errors = some []) :
    processErrors c.deleteSessionOutcome entry =
      ([], some (.unknown ("WA empty errors: " ++ statusJson s))) ∧
    receiveMessagePreview envPhoneId c entry =
      ([.addBreadcrumb ("WA empty errors: " ++ statusJson s),
        .captureException (.unknown ("WA empty errors: " ++ statusJson s))],
       .ok "Message received") := by
  have hp : processErrors c.deleteSessionOutcome entry =
      ([], some (.unknown ("WA empty errors: " ++ statusJson s))) := by
    simp [processErrors, hs, processErrorsCore, he]
  refine ⟨hp, ?_⟩
  unfold receiveMessagePreview
  rw [assertEnv_none envPhoneId h, hp]
  simp [reportError, safeJsonParse, parseUnknownErrorDetails]

theorem c5_witness :
    envFalsy (some "phone-id") = false ∧
    firstStatus entryEmptyErrors = some ⟨"600123", some []⟩ ∧
    (⟨"600123", some []⟩ : Status).errors = some [] ∧
    receiveMessagePreview (some "phone-id") collabUnit entryEmptyErrors =
      ([.addBreadcrumb ("WA empty errors: " ++ statusJson ⟨"600123", some []⟩),
        .captureException
          (.unknown ("WA empty errors: " ++ statusJson ⟨"600123", some []⟩))],
       .ok "Message received") :=
  ⟨by decide, by decide, by decide,
    (c5_empty_errors_unclassified (some "phone-id") collabUnit entryEmptyErrors
      ⟨"600123", some []⟩ (by decide) (by decide) (by decide)).2⟩

theorem processErrorsCore_shape (d : String → Option Err) (o : Option Status) :
    processErrorsCore d o = ([], none) ∨
      (∃ e, processErrorsCore d o = ([], some e)) ∨
      (∃ sid e, processErrorsCore d o = ([Event.deleteSession sid], some e)) := by
  rcases o with _ | s
  · exact Or.inl rfl
  · rcases he : s.errors with _ | errs
    · left
      simp [processErrorsCore, he]
    · rcases errs with _ | ⟨e0, rest⟩
      · have hx : processErrorsCore d (some s) =
            ([], some (Err.unknown ("WA empty errors: " ++ statusJson s))) := by
          simp [processErrorsCore, he]
        exact Or.inr (Or.inl ⟨_, hx⟩)
      · by_cases h1 : e0.code = unengagedUserCode
        · have hx : processErrorsCore d (some s) =
              ([Event.deleteSession (whatsAppPreviewSessionIdPrefix ++ s.recipient_id)],
                some (match d (whatsAppPreviewSessionIdPrefix ++ s.recipient_id) with
                  | none => Err.whatsApp "Could not send message to unengaged user" none
                  | some e => e)) := by
            simp [processErrorsCore, he, h1]
          exact Or.inr (Or.inr ⟨_, _, hx⟩)
        · by_cases h2 : e0.code = messageUndeliverableCode
          · have hx : processErrorsCore d (some s) =
                ([], some (Err.whatsApp "Message undeliverable" none)) := by
              simp [processErrorsCore, he, h1, h2, unengagedUserCode,
                messageUndeliverableCode]
            exact Or.inr (Or.inl ⟨_, hx⟩)
          · by_cases h3 : e0.code = mediaUploadErrorCode
            · have hx : processErrorsCore d (some s) =
                  ([], some (Err.whatsApp "Media upload error" (some e0.error_data))) := by
                simp [processErrorsCore, he, h1, h2, h3, unengagedUserCode,
                  messageUndeliverableCode, mediaUploadErrorCode]
              exact Or.inr (Or.inl ⟨_, hx⟩)
            · have hx : processErrorsCore d (some s) =
                  ([], some (Err.unknown
                    ("WA unknown incoming errors: " ++ waErrListJson (e0 :: rest)))) := by
                simp [processErrorsCore, he, h1, h2, h3]
              exact Or.inr (Or.inl ⟨_, hx⟩)

theorem processErrorsCore_errors_isSome (d : String → Option Err) (s : Status)
    (h : (s.errors).isSome = true) :
    (processErrorsCore d (some s)).2.isSome = true := by
  rcases he : s.errors with _ | errs
  · rw [he] at h
    simp at h
  · rcases errs with _ | ⟨e0, rest⟩
    · simp [processErrorsCore, he]
    · by_cases h1 : e0.code = unengagedUserCode
      · simp [processErrorsCore, he, h1]
      · by_cases h2 : e0.code = messageUndeliverableCode
        · simp [processErrorsCore, he, h1, h2, unengagedUserCode,
            messageUndeliverableCode]
        · by_cases h3 : e0.code = mediaUploadErrorCode
          · simp [processErrorsCore, he, h1, h2, h3, unengagedUserCode,
              messageUndeliverableCode, mediaUploadErrorCode]
          · simp [processErrorsCore, he, h1, h2, h3]

theorem processErrors_noErrors (d : String → Option Err) (entry : List Entry)
    (hs : (firstStatus entry).bind Status.errors = none) :
    processErrors d entry = ([], none) := by
  unfold processErrors
  rcases hfs : firstStatus entry with _ | s
  · rfl
  · rw [hfs] at hs
    simp only [Option.some_bind] at hs
    simp [processErrorsCore, hs]

/-- C2: a first status whose first error carries the unengaged-user code makes
the handler call `deleteSession` exactly once, on the session id built from
the preview prefix and the status recipient id, with no flow resumption; the
thrown value is the classified unengaged-user error when the awaited deletion
resolves, and the deletion failure itself when it rejects, so the deletion
outcome is always surfaced before the error is raised. -/
theorem c2_unengaged_user (envPhoneId : Option String) (c : Collab)
    (entry : List Entry) (s : Status) (e : WAErr) (rest : List WAErr)
    (h : envFalsy envPhoneId = false)
    (hs : firstStatus entry = some s) (he : s.errors = some (e :: rest))
    (hc : e.code = unengagedUserCode) :
    processErrors c.deleteSessionOutcome entry =
      ([Event.deleteSession (whatsAppPreviewSessionIdPrefix ++ s.recipient_id)],
        some (match c.deleteSessionOutcome
            (whatsAppPreviewSessionIdPrefix ++ s.recipient_id) with
          | none => Err.whatsApp "Could not send message to unengaged user" none
          | some de => de)) ∧
    receiveMessagePreview envPhoneId c entry =
      (Event.deleteSession (whatsAppPreviewSessionIdPrefix ++ s.recipient_id) ::
        reportError (match c.deleteSessionOutcome
            (whatsAppPreviewSessionIdPrefix ++ s.recipient_id) with
          | none => Err.whatsApp "Could not send message to unengaged user" none
          | some de => de),
       .ok "Message received") ∧
    (receiveMessagePreview envPhoneId c entry).1.countP isDeleteEvent = 1 ∧
    (receiveMessagePreview envPhoneId c entry).1.countP isResumeEvent = 0 := by
  have hp : processErrors c.deleteSessionOutcome entry =
      ([Event.deleteSession (whatsAppPreviewSessionIdPrefix ++ s.recipient_id)],
        some (match c.deleteSessionOutcome
            (whatsAppPreviewSessionIdPrefix ++ s.recipient_id) with
          | none => Err.whatsApp "Could not send message to unengaged user" none
          | some de => de)) := by
    simp [processErrors, hs, processErrorsCore, he, hc]
  have hr : receiveMessagePreview envPhoneId c entry =
      (Event.deleteSession (whatsAppPreviewSessionIdPrefix ++ s.recipient_id) ::
        reportError (match c.deleteSessionOutcome
            (whatsAppPreviewSessionIdPrefix ++ s.recipient_id) with
          | none => Err.whatsApp "Could not send message to unengaged user" none
          | some de => de),
       .ok "Message received") := by
    unfold receiveMessagePreview
    rw [assertEnv_none envPhoneId h, hp]
    simp
  refine ⟨hp, hr, ?_, ?_⟩
  · rw [hr]
    simp [List.countP_cons, isDeleteEvent,
      (reportError_no_collab_events _).1]
  · rw [hr]
    simp [List.countP_cons, isResumeEvent,
      (reportError_no_collab_events _).2]

theorem c2_witness :
    envFalsy (some "phone-id") = false ∧
    firstStatus entryUnengaged = some statusUnengaged ∧
    statusUnengaged.errors = some (unengagedErr :: []) ∧
    unengagedErr.code = unengagedUserCode ∧
    receiveMessagePreview (some "phone-id") collabUnit entryUnengaged =
      (Event.deleteSession (whatsAppPreviewSessionIdPrefix ++ "600777") ::
        reportError (Err.whatsApp "Could not send message to unengaged user" none),
       .ok "Message received") ∧
    (receiveMessagePreview (some "phone-id") collabUnit entryUnengaged).1.countP
        isDeleteEvent = 1 :=
  have hmain := c2_unengaged_user (some "phone-id") collabUnit entryUnengaged
    statusUnengaged unengagedErr [] (by decide) (by decide) (by decide) (by decide)
  ⟨by decide, by decide, by decide, by decide, hmain.2.1, hmain.2.2.1⟩

/-- C3: one real (non-reaction) first message and no errors field on the first
status makes the handler call `resumeWhatsAppFlow` exactly once, with session
id built from the preview prefix and the message sender, the extracted contact
name and the sender as phone number; whatever the call outcome the response is
the received acknowledgment, and on success the resumption call is the whole
trace. -/
theorem c3_resume_invoked (envPhoneId : Option String) (c : Collab)
    (entry : List Entry) (msg : Message)
    (h : envFalsy envPhoneId = false)
    (hm : firstMessage entry = some msg) (ht : ¬ msg.type = "reaction")
    (hs : (firstStatus entry).bind Status.errors = none) :
    receiveMessagePreview envPhoneId c entry =
      (Event.resumeFlow msg (whatsAppPreviewSessionIdPrefix ++ msg.«from»)
          ((((firstContact entry).bind Contact.profile).bind Profile.name).getD "")
          msg.«from» ::
        (match c.resumeOutcome msg (whatsAppPreviewSessionIdPrefix ++ msg.«from»)
            ((((firstContact entry).bind Contact.profile).bind Profile.name).getD "")
            msg.«from» with
          | none => []
          | some e => reportError e),
       .ok "Message received") ∧
    (receiveMessagePreview envPhoneId c entry).1.countP isResumeEvent = 1 := by
  have hphone : (extractMessageData entry).contactPhoneNumber = msg.«from» := by
    simp [extractMessageData, hm]
  have hname : (extractMessageData entry).contactName =
      (((firstContact entry).bind Contact.profile).bind Profile.name).getD "" := rfl
  have hrecv : (extractMessageData entry).receivedMessage = some msg := hm
  have hmain : receiveMessagePreview envPhoneId c entry =
      (Event.resumeFlow msg (whatsAppPreviewSessionIdPrefix ++ msg.«from»)
          ((((firstContact entry).bind Contact.profile).bind Profile.name).getD "")
          msg.«from» ::
        (match c.resumeOutcome msg (whatsAppPreviewSessionIdPrefix ++ msg.«from»)
            ((((firstContact entry).bind Contact.profile).bind Profile.name).getD "")
            msg.«from» with
          | none => []
          | some e => reportError e),
       .ok "Message received") := by
    unfold receiveMessagePreview
    rw [assertEnv_none envPhoneId h, processErrors_noErrors c.deleteSessionOutcome entry hs]
    have hex : extractMessageData entry =
        ⟨some msg,
          (((firstContact entry).bind Contact.profile).bind Profile.name).getD "",
          msg.«from»⟩ := by
      simp [extractMessageData, hm]
    rw [hex]
    rcases hout : c.resumeOutcome msg (whatsAppPreviewSessionIdPrefix ++ msg.«from»)
        ((((firstContact entry).bind Contact.profile).bind Profile.name).getD "")
        msg.«from» with _ | e <;> simp [hout, ht]
  refine ⟨hmain, ?_⟩
  rw [hmain]
  rcases c.resumeOutcome msg (whatsAppPreviewSessionIdPrefix ++ msg.«from»)
      ((((firstContact entry).bind Contact.profile).bind Profile.name).getD "")
      msg.«from» with _ | e
  · simp [List.countP_cons, isResumeEvent]
  · simp [List.countP_cons, isResumeEvent,
      (reportError_no_collab_events e).2]

theorem c3_witness :
    envFalsy (some "phone-id") = false ∧
    firstMessage entryRealMessage = some msgHello ∧
    ¬ msgHello.type = "reaction" ∧
    (firstStatus entryRealMessage).bind Status.errors = none ∧
    receiveMessagePreview (some "phone-id") collabUnit entryRealMessage =
      ([Event.resumeFlow msgHello
          (whatsAppPreviewSessionIdPrefix ++ msgHello.«from») "Ada" msgHello.«from»],
       .ok "Message received") :=
  have hmain := c3_resume_invoked (some "phone-id") collabUnit entryRealMessage
    msgHello (by decide) (by decide) (by decide) (by decide)
  ⟨by decide, by decide, by decide, by decide, hmain.1⟩

theorem processErrors_shape (d : String → Option Err) (entry : List Entry) :
    processErrors d entry = ([], none) ∨
      (∃ e, processErrors d entry = ([], some e)) ∨
      (∃ sid e, processErrors d entry = ([Event.deleteSession sid], some e)) :=
  processErrorsCore_shape d (firstStatus entry)

/-- C4 counterexample: a payload whose first change carries no messages but
an error-bearing first status is answered with the generic received
acknowledgment, not the no-content one: the error policy throws before the
extraction step and the catch block acknowledges with the generic message.
Flow resumption is indeed never invoked. -/
theorem c4_counterexample :
    firstMessage entryNoMsgWithError = none ∧
    envFalsy (some "phone-id") = false ∧
    (receiveMessagePreview (some "phone-id") collabUnit entryNoMsgWithError).1.countP
        isResumeEvent = 0 ∧
    (receiveMessagePreview (some "phone-id") collabUnit entryNoMsgWithError).2 =
      .ok "Message received" ∧
    ¬ (receiveMessagePreview (some "phone-id") collabUnit entryNoMsgWithError).2 =
      .ok "No message content found" := by decide

/-- C4 amended: when every first message (if any) is reaction-typed, flow
resumption is never invoked, whatever the rest of the payload; and when
additionally the first status carries no errors field, the handler performs no
side effect at all and returns the no-content acknowledgment.  The side
condition on the first status is forced by `c4_counterexample`: with an
error-bearing status the response is the generic received acknowledgment. -/
theorem c4_no_message_amended (envPhoneId : Option String) (c : Collab)
    (entry : List Entry)
    (h : envFalsy envPhoneId = false)
    (hm : ∀ msg, firstMessage entry = some msg → msg.type = "reaction") :
    (receiveMessagePreview envPhoneId c entry).1.countP isResumeEvent = 0 ∧
    ((firstStatus entry).bind Status.errors = none →
      receiveMessagePreview envPhoneId c entry =
        ([], .ok "No message content found")) := by
  constructor
  · unfold receiveMessagePreview
    rw [assertEnv_none envPhoneId h]
    rcases processErrors_shape c.deleteSessionOutcome entry with
        hp | ⟨e, hp⟩ | ⟨sid, e, hp⟩ <;> rw [hp]
    · cases hcase : firstMessage entry with
      | none =>
        have hrecv : (extractMessageData entry).receivedMessage = none := hcase
        simp [hrecv]
      | some msg =>
        have hrecv : (extractMessageData entry).receivedMessage = some msg := hcase
        have ht := hm msg hcase
        simp [hrecv, ht]
    · simp [(reportError_no_collab_events e).2]
    · simp [List.countP_cons, isResumeEvent, (reportError_no_collab_events e).2]
  · intro hs
    unfold receiveMessagePreview
    rw [assertEnv_none envPhoneId h, processErrors_noErrors c.deleteSessionOutcome entry hs]
    cases hcase : firstMessage entry with
    | none =>
      have hrecv : (extractMessageData entry).receivedMessage = none := hcase
      simp [hrecv]
    | some msg =>
      have hrecv : (extractMessageData entry).receivedMessage = some msg := hcase
      have ht := hm msg hcase
      simp [hrecv, ht]

theorem c4_witness :
    envFalsy (some "phone-id") = false ∧
    (receiveMessagePreview (some "phone-id") collabUnit []).1.countP
        isResumeEvent = 0 ∧
    receiveMessagePreview (some "phone-id") collabUnit [] =
      ([], .ok "No message content found") :=
  have hmain := c4_no_message_amended (some "phone-id") collabUnit [] (by decide)
    (fun msg hmsg => by simp [firstMessage, firstChangeValue] at hmsg)
  ⟨by decide, hmain.1, hmain.2 (by decide)⟩

/-- C6: a first status whose first error code matches none of the three
recognized codes makes `processErrors` throw a plain (non-WhatsAppError)
error whose message embeds the serialized raw errors list; no session
deletion and no flow resumption happen (the whole trace is the unclassified
telemetry pair) and the handler still acknowledges success. -/
theorem c6_unknown_code (envPhoneId : Option String) (c : Collab)
    (entry : List Entry) (s : Status) (e : WAErr) (rest : List WAErr)
    (h : envFalsy envPhoneId = false)
    (hs : firstStatus entry = some s) (he : s.errors = some (e :: rest))
    (h1 : ¬ e.code = unengagedUserCode) (h2 : ¬ e.code = messageUndeliverableCode)
    (h3 : ¬ e.code = mediaUploadErrorCode) :
    receiveMessagePreview envPhoneId c entry =
      ([.addBreadcrumb ("WA unknown incoming errors: " ++ waErrListJson (e :: rest)),
        .captureException
          (.unknown ("WA unknown incoming errors: " ++ waErrListJson (e :: rest)))],
       .ok "Message received") := by
  have hp : processErrors c.deleteSessionOutcome entry =
      ([], some (.unknown
        ("WA unknown incoming errors: " ++ waErrListJson (e :: rest)))) := by
    simp [processErrors, hs, processErrorsCore, he, h1, h2, h3]
  unfold receiveMessagePreview
  rw [assertEnv_none envPhoneId h, hp]
  simp [reportError, safeJsonParse, parseUnknownErrorDetails]

theorem c6_witness :
    envFalsy (some "phone-id") = false ∧
    firstStatus entryUnknownCode = some statusUnknownCode ∧
    statusUnknownCode.errors = some (⟨42, some "detail"⟩ :: []) ∧
    ¬ (42 : Nat) = unengagedUserCode ∧
    ¬ (42 : Nat) = messageUndeliverableCode ∧
    ¬ (42 : Nat) = mediaUploadErrorCode ∧
    receiveMessagePreview (some "phone-id") collabUnit entryUnknownCode =
      ([.addBreadcrumb
          ("WA unknown incoming errors: " ++ waErrListJson [⟨42, some "detail"⟩]),
        .captureException (.unknown
          ("WA unknown incoming errors: " ++ waErrListJson [⟨42, some "detail"⟩]))],
       .ok "Message received") :=
  ⟨by decide, by decide, by decide, by decide, by decide, by decide,
    c6_unknown_code (some "phone-id") collabUnit entryUnknownCode statusUnknownCode
      ⟨42, some "detail"⟩ [] (by decide) (by decide) (by decide)
      (by decide) (by decide) (by decide)⟩

/-- C8 counterexample: two payloads agreeing on the first status recipient and
the first error, on the first message (none here) and the first contact (none
here), but differing in a later error of the first status, produce different
observable behavior: the unclassified diagnostic serializes the whole errors
list, so the telemetry collaborator receives different arguments.  The claimed
independence from later errors therefore fails. -/
theorem c8_counterexample :
    ((firstStatus entryOneStrayError).map Status.recipient_id =
       (firstStatus entryTwoStrayErrors).map Status.recipient_id) ∧
    (((firstStatus entryOneStrayError).bind Status.errors).bind List.head? =
       ((firstStatus entryTwoStrayErrors).bind Status.errors).bind List.head?) ∧
    firstMessage entryOneStrayError = firstMessage entryTwoStrayErrors ∧
    firstContact entryOneStrayError = firstContact entryTwoStrayErrors ∧
    envFalsy (some "phone-id") = false ∧
    ¬ receiveMessagePreview (some "phone-id") collabUnit entryOneStrayError =
        receiveMessagePreview (some "phone-id") collabUnit entryTwoStrayErrors := by
  decide

/-- C8 amended: the handler outcome (event trace and result) is a function of
the first status of the first entry and change taken whole (its full errors
list included), the first message, and the first contact; later entries,
changes, statuses, messages and contacts are ignored.  The amendment forced by
`c8_counterexample` is that the dependency is on the whole first status rather
than only on its first error, because the unclassified diagnostics serialize
every error the first status carries. -/
theorem c8_first_projections_determine (envPhoneId : Option String) (c : Collab)
    (e1 e2 : List Entry)
    (hs : firstStatus e1 = firstStatus e2)
    (hm : firstMessage e1 = firstMessage e2)
    (hc : firstContact e1 = firstContact e2) :
    receiveMessagePreview envPhoneId c e1 = receiveMessagePreview envPhoneId c e2 := by
  have hpe : processErrors c.deleteSessionOutcome e1 =
      processErrors c.deleteSessionOutcome e2 := by
    unfold processErrors
    rw [hs]
  have hex : extractMessageData e1 = extractMessageData e2 := by
    unfold extractMessageData
    rw [hm, hc]
  unfold receiveMessagePreview
  rw [hpe, hex]

theorem c8_witness :
    firstStatus entryRealMessage = firstStatus entryRealMessageExtraTail ∧
    firstMessage entryRealMessage = firstMessage entryRealMessageExtraTail ∧
    firstContact entryRealMessage = firstContact entryRealMessageExtraTail ∧
    receiveMessagePreview (some "phone-id") collabUnit entryRealMessage =
      receiveMessagePreview (some "phone-id") collabUnit entryRealMessageExtraTail :=
  ⟨by decide, by decide, by decide,
    c8_first_projections_determine (some "phone-id") collabUnit entryRealMessage
      entryRealMessageExtraTail (by decide) (by decide) (by decide)⟩

/-- C9: `extractMessageData` is total and degrades absent fields to defaults:
the returned message is exactly the first message of the payload; the contact
name is the first contact profile name when present and the empty string
otherwise; the contact phone number is the empty string when no first message
exists and the message sender field otherwise — computed from the message
alone, so any two payloads with the same first message get the same phone
number whatever their contacts say. -/
theorem c9_extract_never_fails (entry : List Entry) :
    ((extractMessageData entry).receivedMessage = firstMessage entry) ∧
    ((((firstContact entry).bind Contact.profile).bind Profile.name = none) →
      (extractMessageData entry).contactName = "") ∧
    (∀ n, (((firstContact entry).bind Contact.profile).bind Profile.name = some n) →
      (extractMessageData entry).contactName = n) ∧
    (firstMessage entry = none →
      (extractMessageData entry).contactPhoneNumber = "") ∧
    (∀ msg, firstMessage entry = some msg →
      (extractMessageData entry).contactPhoneNumber = msg.«from») ∧
    (∀ e2 : List Entry, firstMessage entry = firstMessage e2 →
      (extractMessageData entry).contactPhoneNumber =
        (extractMessageData e2).contactPhoneNumber) := by
  refine ⟨rfl, ?_, ?_, ?_, ?_, ?_⟩
  · intro hn
    simp [extractMessageData, hn]
  · intro n hn
    simp [extractMessageData, hn]
  · intro hm
    simp [extractMessageData, hm]
  · intro msg hm
    simp [extractMessageData, hm]
  · intro e2 hm
    simp [extractMessageData, hm]

theorem c9_witness :
    (extractMessageData entryRealMessage).contactPhoneNumber = msgHello.«from» ∧
    (extractMessageData []).contactPhoneNumber = "" ∧
    (extractMessageData []).contactName = "" :=
  ⟨(c9_extract_never_fails entryRealMessage).2.2.2.2.1 msgHello (by decide),
   (c9_extract_never_fails []).2.2.2.1 (by decide),
   (c9_extract_never_fails []).2.1 (by decide)⟩

theorem receive_counts (envPhoneId : Option String) (c : Collab)
    (entry : List Entry) :
    ((processErrors c.deleteSessionOutcome entry).2.isSome = true →
      (receiveMessagePreview envPhoneId c entry).1.countP isResumeEvent = 0) ∧
    ((receiveMessagePreview envPhoneId c entry).1.countP isDeleteEvent = 0 ∨
      (receiveMessagePreview envPhoneId c entry).1.countP isResumeEvent = 0) := by
  by_cases henv : envFalsy envPhoneId = true
  · have hr : receiveMessagePreview envPhoneId c entry =
        ([], .errored (.trpc "INTERNAL_SERVER_ERROR"
          "WHATSAPP_PREVIEW_FROM_PHONE_NUMBER_ID is not defined")) := by
      unfold receiveMessagePreview assertEnv
      rw [if_pos henv]
    rw [hr]
    exact ⟨fun _ => rfl, Or.inl rfl⟩
  · have henv2 : envFalsy envPhoneId = false := by
      cases hcase : envFalsy envPhoneId
      · rfl
      · exact absurd hcase henv
    rcases processErrors_shape c.deleteSessionOutcome entry with
        hp | ⟨e, hp⟩ | ⟨sid, e, hp⟩
    · have hsome : (processErrors c.deleteSessionOutcome entry).2.isSome = false := by
        rw [hp]
        rfl
      refine ⟨fun hcontra => ?_, Or.inl ?_⟩
      · rw [hsome] at hcontra
        exact absurd hcontra (by simp)
      · unfold receiveMessagePreview
        rw [assertEnv_none envPhoneId henv2, hp]
        cases hcase : firstMessage entry with
        | none =>
          have hrecv : (extractMessageData entry).receivedMessage = none := hcase
          simp [hrecv]
        | some msg =>
          have hrecv : (extractMessageData entry).receivedMessage = some msg := hcase
          by_cases ht : msg.type = "reaction"
          · simp [hrecv, ht]
          · rcases hout : c.resumeOutcome msg
                (whatsAppPreviewSessionIdPrefix ++ msg.«from»)
                (extractMessageData entry).contactName
                (extractMessageData entry).contactPhoneNumber with _ | e
            · simp [hrecv, ht, hout, List.countP_cons, isDeleteEvent]
            · simp [hrecv, ht, hout, List.countP_cons, isDeleteEvent,
                (reportError_no_collab_events e).1]
    · have hres : (receiveMessagePreview envPhoneId c entry).1.countP
          isResumeEvent = 0 := by
        unfold receiveMessagePreview
        rw [assertEnv_none envPhoneId henv2, hp]
        simp [(reportError_no_collab_events e).2]
      exact ⟨fun _ => hres, Or.inr hres⟩
    · have hres : (receiveMessagePreview envPhoneId c entry).1.countP
          isResumeEvent = 0 := by
        unfold receiveMessagePreview
        rw [assertEnv_none envPhoneId henv2, hp]
        simp [List.countP_cons, isResumeEvent, (reportError_no_collab_events e).2]
      exact ⟨fun _ => hres, Or.inr hres⟩

/-- C10: an errors field on the first status (whatever its length or codes)
makes the error policy throw, so extraction and resumption never run: no
flow-resumption call happens for such a payload; and across all payloads,
environments and collaborator outcomes, no single invocation ever calls both
session deletion and flow resumption. -/
theorem c10_delete_resume_exclusive (envPhoneId : Option String) (c : Collab)
    (entry : List Entry) :
    (((firstStatus entry).bind Status.errors).isSome = true →
      (processErrors c.deleteSessionOutcome entry).2.isSome = true ∧
      (receiveMessagePreview envPhoneId c entry).1.countP isResumeEvent = 0) ∧
    ¬ (0 < (receiveMessagePreview envPhoneId c entry).1.countP isDeleteEvent ∧
       0 < (receiveMessagePreview envPhoneId c entry).1.countP isResumeEvent) := by
  have hcounts := receive_counts envPhoneId c entry
  constructor
  · intro herrs
    have hfs : ∃ s, firstStatus entry = some s ∧ (s.errors).isSome = true := by
      rcases hcase : firstStatus entry with _ | s
      · rw [hcase] at herrs
        simp at herrs
      · rw [hcase] at herrs
        simp only [Option.some_bind] at herrs
        exact ⟨s, rfl, herrs⟩
    rcases hfs with ⟨s, hfs, hse⟩
    have hsome : (processErrors c.deleteSessionOutcome entry).2.isSome = true := by
      unfold processErrors
      rw [hfs]
      exact processErrorsCore_errors_isSome c.deleteSessionOutcome s hse
    exact ⟨hsome, hcounts.1 hsome⟩
  · rintro ⟨hd, hr⟩
    rcases hcounts.2 with h0 | h0
    · rw [h0] at hd
      exact absurd hd (by simp)
    · rw [h0] at hr
      exact absurd hr (by simp)

theorem c10_witness :
    ((firstStatus entryUnknownCode).bind Status.errors).isSome = true ∧
    (processErrors collabUnit.deleteSessionOutcome entryUnknownCode).2.isSome = true ∧
    (receiveMessagePreview (some "phone-id") collabUnit entryUnknownCode).1.countP
        isResumeEvent = 0 ∧
    ¬ (0 < (receiveMessagePreview (some "phone-id") collabUnit
            entryUnknownCode).1.countP isDeleteEvent ∧
       0 < (receiveMessagePreview (some "phone-id") collabUnit
            entryUnknownCode).1.countP isResumeEvent) :=
  have hmain := c10_delete_resume_exclusive (some "phone-id") collabUnit entryUnknownCode
  have hpart := hmain.1 (by decide)
  ⟨by decide, hpart.1, hpart.2, hmain.2⟩

end WhatsAppPreview
